import Mathlib

/-!
Shallow embedding of `src/metakube/resource_metakube_cluster_validation.go`
(terraform-provider-metakube) and proofs about its validation rules.

Modelling conventions:
- `*string` fields and `d.Get` results become `Option String`; `none` models a
  nil pointer / nil interface value, `some ""` a present empty string.
- The remote MetaKube client (`metakubeProviderMeta` and its generated client)
  is modelled as a record `RemoteAPI` holding, for one validation pass, the
  response each endpoint returns; `Except.error e` carries the message string
  already produced by `stringifyResponseError` (defined outside this file).
- Go `fmt` formatting of slices and errors is reproduced by `goFmtStringSlice`
  and `goFmtErr`.
- `cty.Path` values become `List PathStep`, built with `getAttrPath`,
  `getAttr`, `indexInt` mirroring the builder chain in the source.
-/

namespace Metakube

/-- models.OpenstackNetwork; the fields this file uses are Name, ID, External. -/
structure OpenstackNetwork where
  name : String
  id : String
  external : Bool
  deriving DecidableEq

/-- models.OpenstackSubnet; the fields this file uses are Name and ID. -/
structure OpenstackSubnet where
  name : String
  id : String
  deriving DecidableEq

/-- models.Cluster; the fields this file uses are ID and Spec.Version. -/
structure Cluster where
  id : String
  specVersion : String
  deriving DecidableEq

/-- diag.Severity: the two severities of the terraform plugin SDK. -/
inductive Severity where
  | error
  | warning
  deriving DecidableEq

/-- One step of a cty.Path: cty.GetAttrStep or cty.IndexStep with an int key. -/
inductive PathStep where
  | getAttrStep : String → PathStep
  | indexIntStep : Int → PathStep
  deriving DecidableEq

/-- cty.GetAttrPath: a path consisting of a single attribute step. -/
def getAttrPath (s : String) : List PathStep := [PathStep.getAttrStep s]

/-- cty.Path.GetAttr: append an attribute step. -/
def getAttr (p : List PathStep) (s : String) : List PathStep :=
  p ++ [PathStep.getAttrStep s]

/-- cty.Path.IndexInt: append an integer index step. -/
def indexInt (p : List PathStep) (i : Int) : List PathStep :=
  p ++ [PathStep.indexIntStep i]

/-- diag.Diagnostic. Omitted fields default to the Go zero value
(empty path, empty detail), as in diag.Errorf / diag.FromErr. -/
structure Diagnostic where
  severity : Severity
  summary : String
  attributePath : List PathStep := []
  detail : String := ""
  deriving DecidableEq

/-- Go fmt %v of a []string: space-separated elements in square brackets;
a nil slice and an empty slice both print as []. -/
def goFmtStringSlice (xs : List String) : String :=
  "[" ++ String.intercalate " " xs ++ "]"

/-- Go fmt %v of an error value: nil prints as nil in angle brackets,
a non-nil error prints its message. -/
def goFmtErr : Option String → String
  | none => "<nil>"
  | some e => e

/-- Model of the *schema.ResourceData fields this file reads.
`version` is d.Get of the key spec.0.version (a declared string, so never nil);
`openstackBlock` is the ok result of d.GetOk of the key spec.0.cloud.0.openstack.0;
the remaining fields are d.Get of dc_name and of the openstack-block keys
username, password, tenant, application_credentials_id,
application_credentials_secret, network, subnet_id, floating_ip_pool. -/
structure ResourceData where
  version : String := ""
  dcName : Option String := none
  openstackBlock : Bool := false
  username : Option String := none
  password : Option String := none
  tenant : Option String := none
  applicationCredentialsID : Option String := none
  applicationCredentialsSecret : Option String := none
  network : Option String := none
  subnetID : Option String := none
  floatingIPPool : Option String := none
  deriving DecidableEq

/-- schema.ResourceData.GetOk on a string field: ok is false when the value
is absent or is the zero value, the empty string. -/
def getOkString : Option String → Option String
  | some s => if s == "" then none else some s
  | none => none

/-- The openstack-block field keys this file reads from the resource
configuration (in newOpenstackValidationData and the floating-IP-pool rule);
these are the declared sub-fields of spec.0.cloud.0.openstack.0 that the
validation code refers to. -/
def openstackFieldKeys : List String :=
  ["username", "password", "tenant", "application_credentials_id",
   "application_credentials_secret", "network", "subnet_id", "floating_ip_pool"]

/-- The remote endpoints used by this file, as the responses they return
during one validation pass. Subnet listing depends on the network id sent. -/
structure RemoteAPI where
  masterVersions : Except String (List String)
  clusterUpgrades : Except String (List String)
  listOpenstackNetworks : Except String (List OpenstackNetwork)
  listOpenstackSubnets : String → Except String (List OpenstackSubnet)

/-- strToPtr: address-of a string value. -/
def strToPtr (s : String) : Option String := some s

/-- toStrPtrOrNil: nil interface maps to nil pointer, otherwise strToPtr of
the string; on the Option model this is the identity. -/
def toStrPtrOrNil (v : Option String) : Option String :=
  match v with
  | none => none
  | some s => strToPtr s

/-- metakubeResourceClusterOpenstackValidationData. -/
structure metakubeResourceClusterOpenstackValidationData where
  dcName : Option String
  domain : Option String
  username : Option String
  password : Option String
  tenant : Option String
  applicationCredentialsID : Option String
  applicationCredentialsSecret : Option String
  network : Option String
  subnetID : Option String
  deriving DecidableEq

/-- newOpenstackValidationData: shape the raw configuration into the
validation-data bundle; domain is hard-coded to the literal Default. -/
def newOpenstackValidationData (d : ResourceData) :
    metakubeResourceClusterOpenstackValidationData :=
  { dcName := toStrPtrOrNil d.dcName
    domain := strToPtr "Default"
    username := toStrPtrOrNil d.username
    password := toStrPtrOrNil d.password
    tenant := toStrPtrOrNil d.tenant
    applicationCredentialsID := toStrPtrOrNil d.applicationCredentialsID
    applicationCredentialsSecret := toStrPtrOrNil d.applicationCredentialsSecret
    network := toStrPtrOrNil d.network
    subnetID := toStrPtrOrNil d.subnetID }

/-- findNetwork: first entry of the list whose name and external flag match. -/
def findNetwork (list : List OpenstackNetwork) (network : String) (external : Bool) :
    Option OpenstackNetwork :=
  list.find? fun item => item.name == network && item.external == external

/-- findSubnet: first entry of the list whose id matches. -/
def findSubnet (list : List OpenstackSubnet) (id : String) : Option OpenstackSubnet :=
  list.find? fun item => item.id == id

/-- The Go triple returned by getNetwork: (found network, full payload, error). -/
structure GetNetworkResult where
  found : Option OpenstackNetwork
  payload : List OpenstackNetwork
  err : Option String
  deriving DecidableEq

/-- getNetwork: list all networks remotely, then look the requested one up;
on transport failure both results are nil with a wrapped error, on lookup
failure the payload is still returned alongside the not-found error. -/
def getNetwork (k : RemoteAPI) (_data : metakubeResourceClusterOpenstackValidationData)
    (name : String) (external : Bool) : GetNetworkResult :=
  match k.listOpenstackNetworks with
  | Except.error e => ⟨none, [], some ("find network instance " ++ e)⟩
  | Except.ok payload =>
    match findNetwork payload name external with
    | none => ⟨none, payload, some ("network `" ++ name ++ "` not found")⟩
    | some ret => ⟨some ret, payload, none⟩

/-- The Go triple returned by getSubnet: (payload, subnet-id found, error). -/
structure GetSubnetResult where
  payload : List OpenstackSubnet
  found : Bool
  err : Option String
  deriving DecidableEq

/-- getSubnet: list the subnets of the given network remotely and report
whether the configured subnet id occurs among them. The Go code dereferences
data.subnetID; every call site has already checked it is non-nil, which the
getD default mirrors. -/
def getSubnet (k : RemoteAPI) (data : metakubeResourceClusterOpenstackValidationData)
    (networkID : String) : GetSubnetResult :=
  match k.listOpenstackSubnets networkID with
  | Except.error e => ⟨[], false, some ("list network subnets: " ++ e)⟩
  | Except.ok payload =>
      ⟨payload, (findSubnet payload (data.subnetID.getD "")).isSome, none⟩

/-- The shared loop body of the two version rules: walk the remote list
appending each version to the accumulator, returning none on a match (the
early return nil) and the accumulated available list if the loop runs out. -/
def scanAvailable (target : String) : List String → List String → Option (List String)
  | [], available => some available
  | v :: rest, available =>
    if v == target then none else scanAvailable target rest (available ++ [v])

/-- metakubeResourceValidateVersionExistence: fetch the master versions; on
transport failure one bare error diagnostic (diag.Errorf), on an unknown
version one error diagnostic on spec.0.version listing the available
versions, otherwise no diagnostics. -/
def metakubeResourceValidateVersionExistence (d : ResourceData) (k : RemoteAPI) :
    List Diagnostic :=
  let version := d.version
  match k.masterVersions with
  | Except.error e => [{ severity := Severity.error, summary := e }]
  | Except.ok payload =>
    match scanAvailable version payload [] with
    | none => []
    | some available =>
      [{ severity := Severity.error
         summary := "unknown version " ++ version
         attributePath := getAttr (indexInt (getAttrPath "spec") 0) "version"
         detail := "Please select one of available versions: " ++
           goFmtStringSlice available }]

/-- metakubeResourceClusterValidateVersionUpgrade: fetch the allowed upgrade
targets of the cluster; on transport failure one bare error diagnostic
(diag.FromErr), on a disallowed target one error diagnostic naming the
transition and the available upgrades, otherwise no diagnostics. -/
def metakubeResourceClusterValidateVersionUpgrade (_projectID newVersion : String)
    (cluster : Cluster) (k : RemoteAPI) : List Diagnostic :=
  match k.clusterUpgrades with
  | Except.error e => [{ severity := Severity.error, summary := e }]
  | Except.ok payload =>
    match scanAvailable newVersion payload [] with
    | none => []
    | some available =>
      [{ severity := Severity.error
         summary := "not allowed upgrade " ++ cluster.specVersion ++ "->" ++ newVersion
         attributePath := getAttr (indexInt (getAttrPath "spec") 0) "version"
         detail := "Please select one of available upgrades: " ++
           goFmtStringSlice available }]

/-- The cty path of the openstack block:
spec.IndexInt 0.cloud.IndexInt 0.openstack.IndexInt 0. -/
def openstackBlockPath : List PathStep :=
  indexInt (getAttr (indexInt (getAttr (indexInt (getAttrPath "spec") 0) "cloud") 0)
    "openstack") 0

/-- validateOpenstackNetworkExistsIfSet: no-op when the field is unset; when
set, resolve it against the remote network list with the requested external
polarity, returning the full payload and the error of getNetwork. The
`fieldValue` argument stands for d.GetOk of the field key passed in Go. -/
def validateOpenstackNetworkExistsIfSet (d : ResourceData) (k : RemoteAPI)
    (fieldValue : Option String) (external : Bool) :
    List OpenstackNetwork × Option String :=
  match getOkString fieldValue with
  | none => ([], none)
  | some value =>
    let data := newOpenstackValidationData d
    let r := getNetwork k data value external
    (r.payload, r.err)

/-- metakubeResourceClusterValidateFloatingIPPool: resolve the
floating_ip_pool field as an external network; on any error one error
diagnostic on the floating_ip_pool field, listing the external networks of a
non-empty payload in the detail. -/
def metakubeResourceClusterValidateFloatingIPPool (d : ResourceData) (k : RemoteAPI) :
    List Diagnostic :=
  let r := validateOpenstackNetworkExistsIfSet d k d.floatingIPPool true
  match r.2 with
  | none => []
  | some e =>
    let nets := r.1
    let diagnoseDetail :=
      if nets.length > 0 then
        let names := (nets.filter fun n => n.external).map fun n => n.name
        "We found following floating IP pools: " ++ goFmtStringSlice names
      else ""
    [{ severity := Severity.error
       summary := "invalid value: " ++ e
       attributePath := getAttr openstackBlockPath "floating_ip_pool"
       detail := diagnoseDetail }]

/-- metakubeResourceClusterValidateOpenstackNetwork: resolve the network
field as a non-external network; on any error one error diagnostic on the
network field, listing the non-external networks of the payload in the
detail when there are any. -/
def metakubeResourceClusterValidateOpenstackNetwork (d : ResourceData) (k : RemoteAPI) :
    List Diagnostic :=
  let r := validateOpenstackNetworkExistsIfSet d k d.network false
  match r.2 with
  | none => []
  | some e =>
    let names := (r.1.filter fun n => n.external == false).map fun n => n.name
    let diagnoseDetail :=
      if names.length > 0 then
        "We found following networks: " ++ goFmtStringSlice names
      else ""
    [{ severity := Severity.error
       summary := "invalid value: " ++ e
       attributePath := getAttr openstackBlockPath "network"
       detail := diagnoseDetail }]

/-- The presence test the credential rule applies to each field:
non-nil pointer and non-empty string. -/
def isSetString (o : Option String) : Bool :=
  match o with
  | some s => s != ""
  | none => false

/-- metakubeResourceClusterValidateAccessCredentialsSet: the credential
exclusivity and completeness rule; three conditions checked in order, only
the first matching one reported, all on the openstack block path. -/
def metakubeResourceClusterValidateAccessCredentialsSet (d : ResourceData) :
    List Diagnostic :=
  let data := newOpenstackValidationData d
  let username := isSetString data.username
  let password := isSetString data.password
  let tenant := isSetString data.tenant
  let applicationCredentialsID := isSetString data.applicationCredentialsID
  let applicationCredentialsSecret := isSetString data.applicationCredentialsSecret
  if (username || password || tenant) &&
      (applicationCredentialsID || applicationCredentialsSecret) then
    [{ severity := Severity.error
       summary := "Please use either username, password, tenant or application_credentials_id, application_credentials_secret, not both"
       attributePath := openstackBlockPath }]
  else if (username || password || tenant) && (!username || !password || !tenant) then
    let details :=
      (if !username then ["username not set"] else []) ++
      (if !password then ["password not set"] else []) ++
      (if !tenant then ["tenant not set"] else [])
    [{ severity := Severity.error
       summary := "Please set all username, password, tenant fields or use application_credentials_id, application_credentials_secret fields"
       attributePath := openstackBlockPath
       detail := String.intercalate ", " details }]
  else if (applicationCredentialsID || applicationCredentialsSecret) &&
      (!applicationCredentialsID || !applicationCredentialsSecret) then
    let details :=
      (if !applicationCredentialsID then ["application_credentials_id not set"] else []) ++
      (if !applicationCredentialsSecret then ["application_credentials_secret not set"] else [])
    [{ severity := Severity.error
       summary := "Please set both application_credentials_id, application_credentials_secret fields"
       attributePath := openstackBlockPath
       detail := String.intercalate ", " details }]
  else []

/-- diagnoseOpenstackSubnetWithIDExistsIfSet: runs only when network and
subnet id are both non-nil; resolves the network with external polarity
true, silently returning nil on a resolution error; then lists the subnets
of the resolved network and, unless the configured subnet id is found,
emits one error diagnostic on the subnetID path whose summary formats the
getSubnet error with %v and whose detail lists the payload subnets as
name/id pairs when the payload is non-empty. -/
def diagnoseOpenstackSubnetWithIDExistsIfSet (d : ResourceData) (k : RemoteAPI) :
    List Diagnostic :=
  let data := newOpenstackValidationData d
  if data.network.isNone || data.subnetID.isNone then []
  else
    let r := getNetwork k data (data.network.getD "") true
    match r.err with
    | some _ => []
    | none =>
      match r.found with
      | none => []
      | some network =>
        let s := getSubnet k data network.id
        if s.found then []
        else
          let diagnoseDetail :=
            if s.payload.length > 0 then
              let tmp := s.payload.map fun i => i.name ++ "/" ++ i.id
              "We found following subnets (name/id): " ++ goFmtStringSlice tmp
            else ""
          [{ severity := Severity.error
             summary := "invalid value: " ++ goFmtErr s.err
             attributePath := getAttr openstackBlockPath "subnetID"
             detail := diagnoseDetail }]

/-- metakubeResourceClusterValidateClusterFields: the orchestrator; version
existence always, and when the openstack block is configured also the
floating-IP-pool, network, credential and subnet rules, concatenated in
this order. -/
def metakubeResourceClusterValidateClusterFields (d : ResourceData) (k : RemoteAPI) :
    List Diagnostic :=
  let ret := metakubeResourceValidateVersionExistence d k
  if !d.openstackBlock then ret
  else
    ret ++ metakubeResourceClusterValidateFloatingIPPool d k
        ++ metakubeResourceClusterValidateOpenstackNetwork d k
        ++ metakubeResourceClusterValidateAccessCredentialsSet d
        ++ diagnoseOpenstackSubnetWithIDExistsIfSet d k

/-! Concrete fixtures used to evaluate the rules on closed inputs. -/

/-- A remote network with the external flag false. -/
def netExtFalse : OpenstackNetwork := ⟨"prod-net", "n1", false⟩

/-- A remote network with the external flag true. -/
def netExtTrue : OpenstackNetwork := ⟨"ext-net", "n2", true⟩

/-- A remote subnet with id s1. -/
def subnetS1 : OpenstackSubnet := ⟨"sub-one", "s1"⟩

/-- A remote subnet with id s2. -/
def subnetS2 : OpenstackSubnet := ⟨"sub-two", "s2"⟩

/-- A remote API where every endpoint succeeds with an empty list. -/
def apiQuiet : RemoteAPI :=
  { masterVersions := Except.ok []
    clusterUpgrades := Except.ok []
    listOpenstackNetworks := Except.ok []
    listOpenstackSubnets := fun _ => Except.ok [] }

/-- A configuration without an openstack block. -/
def cfgNoOS : ResourceData := { version := "1.25.0" }

/-- A configuration with an openstack block and nothing else set. -/
def cfgOS : ResourceData := { version := "1.25.0", openstackBlock := true }

/-- A configuration requesting a version absent from apiVers. -/
def cfgVerBad : ResourceData := { version := "1.99.0" }

/-- A remote API offering master versions 1.25.0 and 1.26.0. -/
def apiVers : RemoteAPI := { apiQuiet with masterVersions := Except.ok ["1.25.0", "1.26.0"] }

/-! Helper lemmas about the loop and lookup functions. -/

/-- When the target version is not in the remote list, the scan runs the
whole list and returns the accumulator extended by every element. -/
theorem scanAvailable_of_not_mem (target : String) :
    ∀ (payload acc : List String), target ∉ payload →
      scanAvailable target payload acc = some (acc ++ payload) := by
  intro payload
  induction payload with
  | nil => intro acc _; simp [scanAvailable]
  | cons v rest ih =>
    intro acc h
    rw [List.mem_cons, not_or] at h
    have hv : (v == target) = false := beq_eq_false_iff_ne.mpr fun hvt => h.1 hvt.symm
    rw [scanAvailable, if_neg (by simp [hv]), ih (acc ++ [v]) h.2, List.append_assoc]
    rfl

/-- When the target version is in the remote list, the scan returns none
(the early return). -/
theorem scanAvailable_of_mem (target : String) :
    ∀ (payload acc : List String), target ∈ payload →
      scanAvailable target payload acc = none := by
  intro payload
  induction payload with
  | nil => intro acc h; exact absurd h (List.not_mem_nil target)
  | cons v rest ih =>
    intro acc h
    by_cases hv : v = target
    · simp [scanAvailable, hv]
    · have hmem : target ∈ rest := by
        rcases List.mem_cons.mp h with h1 | h1
        · exact absurd h1.symm hv
        · exact h1
      have hv2 : (v == target) = false := beq_eq_false_iff_ne.mpr hv
      rw [scanAvailable, if_neg (by simp [hv2])]
      exact ih (acc ++ [v]) hmem

/-- getNetwork reports a network whenever it reports no error. -/
theorem getNetwork_found_of_err_none (k : RemoteAPI)
    (data : metakubeResourceClusterOpenstackValidationData) (name : String)
    (external : Bool) (h : (getNetwork k data name external).err = none) :
    (getNetwork k data name external).found.isSome = true := by
  unfold getNetwork at h ⊢
  cases hk : k.listOpenstackNetworks with
  | error e => simp [hk] at h
  | ok payload =>
    cases hf : findNetwork payload name external with
    | none => simp [hk, hf] at h
    | some ret => simp [hk, hf]

/-! Claim theorems. -/

/-- C4: for a configuration with no openstack block the orchestrator returns
exactly the version-existence diagnostics; with one it returns the
concatenation, in fixed order, of the version-existence, floating-IP-pool,
network-existence, credential and subnet-existence diagnostics. -/
theorem C4_orchestrator_shape (d : ResourceData) (k : RemoteAPI) :
    (d.openstackBlock = false →
      metakubeResourceClusterValidateClusterFields d k =
        metakubeResourceValidateVersionExistence d k) ∧
    (d.openstackBlock = true →
      metakubeResourceClusterValidateClusterFields d k =
        metakubeResourceValidateVersionExistence d k
          ++ metakubeResourceClusterValidateFloatingIPPool d k
          ++ metakubeResourceClusterValidateOpenstackNetwork d k
          ++ metakubeResourceClusterValidateAccessCredentialsSet d
          ++ diagnoseOpenstackSubnetWithIDExistsIfSet d k) := by
  constructor <;> intro h <;>
    simp [metakubeResourceClusterValidateClusterFields, h]

/-- Witness for C4 at concrete configurations with and without a block. -/
theorem C4_orchestrator_shape_witness :
    metakubeResourceClusterValidateClusterFields cfgNoOS apiQuiet =
      metakubeResourceValidateVersionExistence cfgNoOS apiQuiet ∧
    metakubeResourceClusterValidateClusterFields cfgOS apiQuiet =
      metakubeResourceValidateVersionExistence cfgOS apiQuiet
        ++ metakubeResourceClusterValidateFloatingIPPool cfgOS apiQuiet
        ++ metakubeResourceClusterValidateOpenstackNetwork cfgOS apiQuiet
        ++ metakubeResourceClusterValidateAccessCredentialsSet cfgOS
        ++ diagnoseOpenstackSubnetWithIDExistsIfSet cfgOS apiQuiet :=
  ⟨(C4_orchestrator_shape cfgNoOS apiQuiet).1 rfl,
   (C4_orchestrator_shape cfgOS apiQuiet).2 rfl⟩

/-- C5: when the master-version call succeeds, a requested version absent
from the list yields exactly one error diagnostic on spec.0.version with
summary naming the unknown version and detail enumerating the full
available list; a present version yields no diagnostics. -/
theorem C5_version_existence (d : ResourceData) (k : RemoteAPI)
    (versionsList : List String)
    (hok : k.masterVersions = Except.ok versionsList) :
    (d.version ∉ versionsList →
      metakubeResourceValidateVersionExistence d k =
        [{ severity := Severity.error
           summary := "unknown version " ++ d.version
           attributePath := getAttr (indexInt (getAttrPath "spec") 0) "version"
           detail := "Please select one of available versions: " ++
             goFmtStringSlice versionsList }]) ∧
    (d.version ∈ versionsList →
      metakubeResourceValidateVersionExistence d k = []) := by
  constructor <;> intro h
  · simp [metakubeResourceValidateVersionExistence, hok,
      scanAvailable_of_not_mem d.version versionsList [] h]
  · simp [metakubeResourceValidateVersionExistence, hok,
      scanAvailable_of_mem d.version versionsList [] h]

/-- Witness for C5: version 1.99.0 against remote list [1.25.0, 1.26.0],
and version 1.25.0 against the same list. -/
theorem C5_version_existence_witness :
    metakubeResourceValidateVersionExistence cfgVerBad apiVers =
      [{ severity := Severity.error
         summary := "unknown version 1.99.0"
         attributePath := getAttr (indexInt (getAttrPath "spec") 0) "version"
         detail := "Please select one of available versions: [1.25.0 1.26.0]" }] ∧
    metakubeResourceValidateVersionExistence cfgNoOS apiVers = [] :=
  ⟨(C5_version_existence cfgVerBad apiVers ["1.25.0", "1.26.0"] rfl).1 (by decide),
   (C5_version_existence cfgNoOS apiVers ["1.25.0", "1.26.0"] rfl).2 (by decide)⟩

/-- C9: every rule, at every configuration and remote response, returns a
diagnostic list of length at most one. -/
theorem C9_rules_yield_at_most_one (d : ResourceData) (k : RemoteAPI)
    (projectID newVersion : String) (cluster : Cluster) :
    (metakubeResourceValidateVersionExistence d k).length ≤ 1 ∧
    (metakubeResourceClusterValidateVersionUpgrade projectID newVersion cluster k).length ≤ 1 ∧
    (metakubeResourceClusterValidateFloatingIPPool d k).length ≤ 1 ∧
    (metakubeResourceClusterValidateOpenstackNetwork d k).length ≤ 1 ∧
    (metakubeResourceClusterValidateAccessCredentialsSet d).length ≤ 1 ∧
    (diagnoseOpenstackSubnetWithIDExistsIfSet d k).length ≤ 1 := by
  refine ⟨?_, ?_, ?_, ?_, ?_, ?_⟩
  · unfold metakubeResourceValidateVersionExistence
    cases k.masterVersions with
    | error e => simp
    | ok payload =>
      cases h : scanAvailable d.version payload [] <;> simp [h]
  · unfold metakubeResourceClusterValidateVersionUpgrade
    cases k.clusterUpgrades with
    | error e => simp
    | ok payload =>
      cases h : scanAvailable newVersion payload [] <;> simp [h]
  · unfold metakubeResourceClusterValidateFloatingIPPool
    cases h : (validateOpenstackNetworkExistsIfSet d k d.floatingIPPool true).2 <;>
      simp [h]
  · unfold metakubeResourceClusterValidateOpenstackNetwork
    cases h : (validateOpenstackNetworkExistsIfSet d k d.network false).2 <;>
      simp [h]
  · unfold metakubeResourceClusterValidateAccessCredentialsSet
    dsimp only
    repeat' split
    all_goals simp
  · unfold diagnoseOpenstackSubnetWithIDExistsIfSet
    dsimp only
    repeat' split
    all_goals simp

/-- toStrPtrOrNil is the identity on the Option model of Go values. -/
theorem toStrPtrOrNil_eq (v : Option String) : toStrPtrOrNil v = v := by
  cases v <;> rfl

/-- A configuration mixing a basic-auth field with an application credential. -/
def cfgBothCreds : ResourceData :=
  { openstackBlock := true, username := some "u", applicationCredentialsID := some "a" }

/-- A configuration setting only the username among the credential fields. -/
def cfgUserOnly : ResourceData := { openstackBlock := true, username := some "u" }

/-- C7: when at least one of username, password, tenant is set and at least
one of the application-credential fields is set, the credential rule yields
exactly the exclusivity diagnostic on the openstack block and nothing else. -/
theorem C7_credentials_exclusivity (d : ResourceData)
    (hbasic : (isSetString d.username || isSetString d.password ||
      isSetString d.tenant) = true)
    (happ : (isSetString d.applicationCredentialsID ||
      isSetString d.applicationCredentialsSecret) = true) :
    metakubeResourceClusterValidateAccessCredentialsSet d =
      [{ severity := Severity.error
         summary := "Please use either username, password, tenant or application_credentials_id, application_credentials_secret, not both"
         attributePath := openstackBlockPath }] := by
  simp [metakubeResourceClusterValidateAccessCredentialsSet,
    newOpenstackValidationData, toStrPtrOrNil_eq, hbasic, happ]

/-- Witness for C7 at a configuration with username and an application
credential id both set. -/
theorem C7_credentials_exclusivity_witness :
    metakubeResourceClusterValidateAccessCredentialsSet cfgBothCreds =
      [{ severity := Severity.error
         summary := "Please use either username, password, tenant or application_credentials_id, application_credentials_secret, not both"
         attributePath := openstackBlockPath }] :=
  C7_credentials_exclusivity cfgBothCreds (by decide) (by decide)

/-- C8: with both application-credential fields unset and exactly one of
username, password, tenant set, the credential rule yields exactly one
error diagnostic whose detail names the two missing basic-auth fields. -/
theorem C8_credentials_one_basic_set (d : ResourceData)
    (hid : isSetString d.applicationCredentialsID = false)
    (hsec : isSetString d.applicationCredentialsSecret = false) :
    (isSetString d.username = true → isSetString d.password = false →
      isSetString d.tenant = false →
      metakubeResourceClusterValidateAccessCredentialsSet d =
        [{ severity := Severity.error
           summary := "Please set all username, password, tenant fields or use application_credentials_id, application_credentials_secret fields"
           attributePath := openstackBlockPath
           detail := "password not set, tenant not set" }]) ∧
    (isSetString d.username = false → isSetString d.password = true →
      isSetString d.tenant = false →
      metakubeResourceClusterValidateAccessCredentialsSet d =
        [{ severity := Severity.error
           summary := "Please set all username, password, tenant fields or use application_credentials_id, application_credentials_secret fields"
           attributePath := openstackBlockPath
           detail := "username not set, tenant not set" }]) ∧
    (isSetString d.username = false → isSetString d.password = false →
      isSetString d.tenant = true →
      metakubeResourceClusterValidateAccessCredentialsSet d =
        [{ severity := Severity.error
           summary := "Please set all username, password, tenant fields or use application_credentials_id, application_credentials_secret fields"
           attributePath := openstackBlockPath
           detail := "username not set, password not set" }]) := by
  refine ⟨?_, ?_, ?_⟩ <;> intro h1 h2 h3 <;>
    simp [metakubeResourceClusterValidateAccessCredentialsSet,
      newOpenstackValidationData, toStrPtrOrNil_eq, hid, hsec, h1, h2, h3,
      String.intercalate] <;> rfl

/-- Witness for C8 at a configuration with only the username set. -/
theorem C8_credentials_one_basic_set_witness :
    metakubeResourceClusterValidateAccessCredentialsSet cfgUserOnly =
      [{ severity := Severity.error
         summary := "Please set all username, password, tenant fields or use application_credentials_id, application_credentials_secret fields"
         attributePath := openstackBlockPath
         detail := "password not set, tenant not set" }] :=
  (C8_credentials_one_basic_set cfgUserOnly rfl rfl).1 rfl rfl rfl

/-- A configuration selecting network ext-net and subnet id s9. -/
def cfgSubnet : ResourceData :=
  { openstackBlock := true, network := some "ext-net", subnetID := some "s9" }

/-- A remote API where ext-net resolves but every subnet listing fails. -/
def apiSubnetsDown : RemoteAPI :=
  { apiQuiet with
      listOpenstackNetworks := Except.ok [netExtTrue]
      listOpenstackSubnets := fun _ => Except.error "boom" }

/-- A remote API where ext-net resolves and every subnet listing returns
the subnets s1 and s2. -/
def apiSubnetsOk : RemoteAPI :=
  { apiQuiet with
      listOpenstackNetworks := Except.ok [netExtTrue]
      listOpenstackSubnets := fun _ => Except.ok [subnetS1, subnetS2] }

/-- The configuration of the prod-net scenario: network prod-net, subnet s9. -/
def cfgProdNet : ResourceData :=
  { openstackBlock := true, network := some "prod-net", subnetID := some "s9" }

/-- A remote API knowing only the non-external prod-net with subnets s1, s2. -/
def apiProdNet : RemoteAPI :=
  { apiQuiet with
      listOpenstackNetworks := Except.ok [netExtFalse]
      listOpenstackSubnets := fun nid =>
        if nid == "n1" then Except.ok [subnetS1, subnetS2] else Except.ok [] }

/-- C1 counterexample: network and subnet id both set, the network resolving
remotely, and the subnet listing failing with a transport error, yet the
rule emits a diagnostic rather than none. -/
theorem C1_counterexample :
    (getNetwork apiSubnetsDown (newOpenstackValidationData cfgSubnet)
        "ext-net" true).err = none ∧
    apiSubnetsDown.listOpenstackSubnets "n2" = Except.error "boom" ∧
    diagnoseOpenstackSubnetWithIDExistsIfSet cfgSubnet apiSubnetsDown ≠ [] := by
  refine ⟨rfl, rfl, ?_⟩
  decide

/-- C1 amended: when both fields are set, the network resolves, and the
subnet listing fails, the rule emits exactly one error diagnostic on the
subnetID path whose summary wraps the listing error and whose detail is
empty; the rule is silent only when the network resolution itself fails. -/
theorem C1_amended_subnet_transport_error (d : ResourceData) (k : RemoteAPI)
    (nm sid e : String) (net : OpenstackNetwork) (nets : List OpenstackNetwork)
    (hnm : d.network = some nm) (hsid : d.subnetID = some sid)
    (hnets : k.listOpenstackNetworks = Except.ok nets)
    (hfind : findNetwork nets nm true = some net)
    (hsub : k.listOpenstackSubnets net.id = Except.error e) :
    diagnoseOpenstackSubnetWithIDExistsIfSet d k =
      [{ severity := Severity.error
         summary := "invalid value: " ++ ("list network subnets: " ++ e)
         attributePath := getAttr openstackBlockPath "subnetID"
         detail := "" }] := by
  simp [diagnoseOpenstackSubnetWithIDExistsIfSet, newOpenstackValidationData,
    toStrPtrOrNil_eq, hnm, hsid, getNetwork, hnets, hfind, getSubnet, hsub,
    goFmtErr]

/-- Witness for the amended C1 at the concrete failing remote API. -/
theorem C1_amended_subnet_transport_error_witness :
    diagnoseOpenstackSubnetWithIDExistsIfSet cfgSubnet apiSubnetsDown =
      [{ severity := Severity.error
         summary := "invalid value: list network subnets: boom"
         attributePath := getAttr openstackBlockPath "subnetID"
         detail := "" }] :=
  C1_amended_subnet_transport_error cfgSubnet apiSubnetsDown
    "ext-net" "s9" "boom" netExtTrue [netExtTrue] rfl rfl rfl rfl rfl

/-- C2 counterexample: the spec scenario: prod-net exists remotely with the
external flag false holding subnets s1 and s2, subnet s9 is requested, yet
the rule yields no diagnostic at all, because it resolves the network with
external polarity true. -/
theorem C2_counterexample :
    findNetwork [netExtFalse] "prod-net" false = some netExtFalse ∧
    apiProdNet.listOpenstackSubnets "n1" = Except.ok [subnetS1, subnetS2] ∧
    diagnoseOpenstackSubnetWithIDExistsIfSet cfgProdNet apiProdNet = [] := by
  refine ⟨rfl, rfl, rfl⟩

/-- C2 amended: when the configured network name resolves with external
polarity true and its subnet listing succeeds without containing the
configured subnet id, the rule yields exactly one error diagnostic on the
subnetID path whose detail lists all discovered subnets as name/id pairs. -/
theorem C2_amended_subnet_not_found (d : ResourceData) (k : RemoteAPI)
    (nm sid : String) (net : OpenstackNetwork) (nets : List OpenstackNetwork)
    (s1 : OpenstackSubnet) (subs : List OpenstackSubnet)
    (hnm : d.network = some nm) (hsid : d.subnetID = some sid)
    (hnets : k.listOpenstackNetworks = Except.ok nets)
    (hfind : findNetwork nets nm true = some net)
    (hsubs : k.listOpenstackSubnets net.id = Except.ok (s1 :: subs))
    (hnotin : findSubnet (s1 :: subs) sid = none) :
    diagnoseOpenstackSubnetWithIDExistsIfSet d k =
      [{ severity := Severity.error
         summary := "invalid value: <nil>"
         attributePath := getAttr openstackBlockPath "subnetID"
         detail := "We found following subnets (name/id): " ++
           goFmtStringSlice ((s1 :: subs).map fun i => i.name ++ "/" ++ i.id) }] := by
  simp [diagnoseOpenstackSubnetWithIDExistsIfSet, newOpenstackValidationData,
    toStrPtrOrNil_eq, hnm, hsid, getNetwork, hnets, hfind, getSubnet, hsubs,
    hnotin, goFmtErr]

/-- Witness for the amended C2 at the concrete ext-net fixtures. -/
theorem C2_amended_subnet_not_found_witness :
    diagnoseOpenstackSubnetWithIDExistsIfSet cfgSubnet apiSubnetsOk =
      [{ severity := Severity.error
         summary := "invalid value: <nil>"
         attributePath := getAttr openstackBlockPath "subnetID"
         detail := "We found following subnets (name/id): [sub-one/s1 sub-two/s2]" }] :=
  C2_amended_subnet_not_found cfgSubnet apiSubnetsOk
    "ext-net" "s9" netExtTrue [netExtTrue] subnetS1 [subnetS2] rfl rfl rfl rfl rfl rfl

/-- C10: whenever the network resolves with external polarity true and the
subnet listing succeeds without containing the configured subnet id, the
emitted diagnostic's summary formats the nil error value of the successful
getSubnet call: invalid value followed by nil in angle brackets. -/
theorem C10_nil_error_summary (d : ResourceData) (k : RemoteAPI)
    (nm sid : String) (net : OpenstackNetwork) (nets : List OpenstackNetwork)
    (subs : List OpenstackSubnet)
    (hnm : d.network = some nm) (hsid : d.subnetID = some sid)
    (hnets : k.listOpenstackNetworks = Except.ok nets)
    (hfind : findNetwork nets nm true = some net)
    (hsubs : k.listOpenstackSubnets net.id = Except.ok subs)
    (hnotin : findSubnet subs sid = none) :
    (diagnoseOpenstackSubnetWithIDExistsIfSet d k).map (fun x => x.summary) =
      ["invalid value: <nil>"] := by
  simp [diagnoseOpenstackSubnetWithIDExistsIfSet, newOpenstackValidationData,
    toStrPtrOrNil_eq, hnm, hsid, getNetwork, hnets, hfind, getSubnet, hsubs,
    hnotin, goFmtErr]

/-- Witness for C10 at the concrete ext-net fixtures. -/
theorem C10_nil_error_summary_witness :
    (diagnoseOpenstackSubnetWithIDExistsIfSet cfgSubnet apiSubnetsOk).map
        (fun x => x.summary) = ["invalid value: <nil>"] :=
  C10_nil_error_summary cfgSubnet apiSubnetsOk
    "ext-net" "s9" netExtTrue [netExtTrue] [subnetS1, subnetS2] rfl rfl rfl rfl rfl rfl

/-- C3: at a configuration where the subnet rule fires, its diagnostic's
attribute path addresses a field named subnetID inside the openstack block,
which is not among the openstack-block field keys this code reads from the
configuration; the configured field is named subnet_id. -/
theorem C3_subnet_path_key_mismatch :
    (diagnoseOpenstackSubnetWithIDExistsIfSet cfgSubnet apiSubnetsOk).map
        (fun x => x.attributePath) =
      [getAttr openstackBlockPath "subnetID"] ∧
    "subnetID" ∉ openstackFieldKeys ∧
    "subnet_id" ∈ openstackFieldKeys := by
  refine ⟨by decide, by decide, by decide⟩

/-- A configuration requesting the floating IP pool ext-pool. -/
def cfgFip : ResourceData :=
  { openstackBlock := true, floatingIPPool := some "ext-pool" }

/-- A remote API whose network list holds only the non-external prod-net. -/
def apiOnlyInternal : RemoteAPI :=
  { apiQuiet with listOpenstackNetworks := Except.ok [netExtFalse] }

/-- C6 counterexample: floating_ip_pool requested while the remote list
holds only a non-external network: the rule emits one diagnostic whose
detail is the found-pools sentence around an empty list, not an empty or
absent detail. -/
theorem C6_counterexample :
    (metakubeResourceClusterValidateFloatingIPPool cfgFip apiOnlyInternal).map
        (fun x => x.detail) =
      ["We found following floating IP pools: []"] ∧
    "We found following floating IP pools: []" ≠ "" := by
  refine ⟨by decide, by decide⟩

/-- C6 amended: with floating_ip_pool set and the remote call returning a
non-empty list of exclusively non-external networks, the rule yields exactly
one error diagnostic on floating_ip_pool whose detail is the found-pools
sentence listing no pool names; the detail is empty only when the returned
list itself is empty. -/
theorem C6_amended_found_pools_detail (d : ResourceData) (k : RemoteAPI)
    (v : String) (n1 : OpenstackNetwork) (rest : List OpenstackNetwork)
    (hv : getOkString d.floatingIPPool = some v)
    (hnets : k.listOpenstackNetworks = Except.ok (n1 :: rest))
    (hext : ∀ n ∈ n1 :: rest, n.external = false) :
    metakubeResourceClusterValidateFloatingIPPool d k =
      [{ severity := Severity.error
         summary := "invalid value: " ++ ("network `" ++ v ++ "` not found")
         attributePath := getAttr openstackBlockPath "floating_ip_pool"
         detail := "We found following floating IP pools: []" }] := by
  have hfind : findNetwork (n1 :: rest) v true = none := by
    rw [findNetwork, List.find?_eq_none]
    intro x hx
    simp [hext x hx]
  have hfilter : (n1 :: rest).filter (fun n => n.external) = [] := by
    rw [List.filter_eq_nil_iff]
    intro x hx
    simp [hext x hx]
  simp [metakubeResourceClusterValidateFloatingIPPool,
    validateOpenstackNetworkExistsIfSet, hv, getNetwork, hnets, hfind, hfilter,
    goFmtStringSlice, String.intercalate]

/-- Witness for the amended C6 at the concrete fixtures. -/
theorem C6_amended_found_pools_detail_witness :
    metakubeResourceClusterValidateFloatingIPPool cfgFip apiOnlyInternal =
      [{ severity := Severity.error
         summary := "invalid value: network `ext-pool` not found"
         attributePath := getAttr openstackBlockPath "floating_ip_pool"
         detail := "We found following floating IP pools: []" }] :=
  C6_amended_found_pools_detail cfgFip apiOnlyInternal
    "ext-pool" netExtFalse [] rfl rfl (by decide)

end Metakube
